import Mathlib

/-
Verification of the safebot supplier risk-analysis pipeline.

Shallow embedding of the core pipeline from the repository sources:
  server/api/routes/rag.py             (analyze_risk route)
  server/ingestion/utils/__init__.py   (call_llm response parsing,
                                        parse_risk_assessment,
                                        extract_text_from_file,
                                        chunk_and_embed_document)

External collaborators (the remote chat-completion service, the sentence
embedder, the qdrant vector store, the file readers, the langchain text
splitter and the uuid generator) are modelled as explicit oracle
parameters.  Python floats (similarity scores, the 0.10 threshold) are
modelled as exact rationals; Python strings as Lean strings.
-/

set_option maxRecDepth 20000

namespace Safebot

/-- Python str.strip: drop leading and trailing whitespace characters. -/
def pyStrip (s : String) : String :=
  String.mk (((s.toList.dropWhile Char.isWhitespace).reverse.dropWhile
    Char.isWhitespace).reverse)

/-- Membership of one character list as a contiguous run inside another,
mirroring the Python expression needle in hay on strings. -/
def listIn (needle : List Char) : List Char → Bool
  | [] => needle.isEmpty
  | c :: rest => needle.isPrefixOf (c :: rest) || listIn needle rest

/-- Python substring test: needle in hay. -/
def py_in (needle hay : String) : Bool :=
  listIn needle.toList hay.toList

/-- Lexicographic comparison of character lists by code point, mirroring
Python string comparison (used by the built-in sorted). -/
def lexLe : List Char → List Char → Bool
  | [], _ => true
  | _ :: _, [] => false
  | a :: as, b :: bs => if a < b then true else if b < a then false else lexLe as bs

/-- Python string order (ascending), as a binary relation. -/
def pyStrLe (a b : String) : Prop :=
  lexLe a.toList b.toList = true

instance : DecidableRel pyStrLe :=
  fun a b => inferInstanceAs (Decidable (lexLe a.toList b.toList = true))

/-- Python sorted(list({...})) on strings: the distinct elements in
ascending order. -/
def pySortedSet (l : List String) : List String :=
  List.insertionSort pyStrLe l.dedup

/-! JSON-like values, for the response envelopes handled by call_llm. -/

/-- A JSON-like value: string, array, object, or anything else (numbers,
booleans, null), which the response parsing never inspects further. -/
inductive J where
  | s : String → J
  | l : List J → J
  | o : List (String × J) → J
  | other : J

/-- First-match association lookup in the field list of an object, mirroring
Python dict indexing on the literal objects involved. -/
def jFind : List (String × J) → String → Option J
  | [], _ => none
  | (k, v) :: rest, key => if k = key then some v else jFind rest key

/-- Field lookup: some value when the receiver is an object carrying the
key, none otherwise (mirrors the "key in obj" guards of call_llm). -/
def J.find : J → String → Option J
  | .o kvs, key => jFind kvs key
  | _, _ => none

/-- Python p.get("text", "") restricted to string-valued fields: the text
field of a content part, empty when absent. -/
def partText (p : J) : String :=
  match p.find "text" with
  | some (.s t) => t
  | _ => ""

/-- Format A of call_llm: choices[0].message.content. -/
def tryShapeA (choice : J) : Option J :=
  match choice.find "message" with
  | some m => m.find "content"
  | none => none

/-- Format B of call_llm: choices[0].text. -/
def tryShapeB (choice : J) : Option J :=
  choice.find "text"

/-- Format C of call_llm: choices[0].content, either a plain string or a
list of parts whose text fields are concatenated in order. -/
def tryShapeC (choice : J) : Option J :=
  match choice.find "content" with
  | some (.l parts) => some (.s (String.join (parts.map partText)))
  | some (.s str) => some (.s str)
  | _ => none

/-- The ordered attempt over the three envelope shapes of call_llm,
entered only when the response has a non-empty choices array. -/
def tryShapes (resp : J) : Option J :=
  match resp.find "choices" with
  | some (.l (choice :: _)) =>
    match tryShapeA choice with
    | some v => some v
    | none =>
      match tryShapeB choice with
      | some v => some v
      | none => tryShapeC choice
  | _ => none

/-- The two failure modes raised by the response-shape handling of
call_llm: the error-object raise and the unknown-format raise. -/
inductive LLMFail where
  | remoteModelError : J → LLMFail
  | unrecognizedResponseFormat : LLMFail

/-- Response parsing of call_llm: try the three envelope shapes in order;
on fall-through raise on an explicit error object, else raise the
unknown-format error. -/
def parse_llm_response (resp : J) : Except LLMFail J :=
  match tryShapes resp with
  | some v => .ok v
  | none =>
    match resp.find "error" with
    | some err => .error (.remoteModelError err)
    | none => .error .unrecognizedResponseFormat

/-- parse_risk_assessment: scan the first 50 characters of the generated
text for the literal substrings High then Low; default Moderate. -/
def parse_risk_assessment (assessment_text : String) : String :=
  if py_in "High" (assessment_text.take 50) then "High"
  else if py_in "Low" (assessment_text.take 50) then "Low"
  else "Moderate"

/-! Ingestion: extraction dispatch and chunk construction. -/

/-- Python exception values raised by the ingestion code, tagged by the
exception class used at the raise site. -/
inductive PyErr where
  | valueError : String → PyErr
  | importError : String → PyErr
  | exception : String → PyErr
deriving DecidableEq

/-- Python str(e) on the modelled exceptions: the carried message. -/
def errMsg : PyErr → String
  | .valueError m => m
  | .importError m => m
  | .exception m => m

/-- Python str.lower, character by character. -/
def pyLower (s : String) : String :=
  String.mk (s.toList.map Char.toLower)

/-- extract_text_from_file, over the extension component produced by
os.path.splitext(file_path)[1]; the three format readers stand for the
external PyPDF2 / mammoth / builtin-open extraction calls. -/
def extract_text_from_file (extRaw : String)
    (readPdf readDocx readTxt : Except PyErr String) : Except PyErr String :=
  let file_extension := pyLower extRaw
  if file_extension = ".pdf" then
    match readPdf with
    | .ok t => .ok t
    | .error (.importError _) =>
      .error (.importError
        "PyPDF2 is required for PDF processing. Install it with: pip install PyPDF2")
    | .error e => .error (.exception ("Error processing PDF: " ++ errMsg e))
  else if file_extension = ".docx" then
    match readDocx with
    | .ok t => .ok t
    | .error e => .error (.exception ("Error processing DOCX: " ++ errMsg e))
  else if file_extension = ".txt" then
    match readTxt with
    | .ok t => .ok t
    | .error e => .error (.exception ("Error processing TXT: " ++ errMsg e))
  else
    .error (.valueError ("Unsupported file type: " ++ file_extension))

/-- A qdrant PointStruct as built by chunk_and_embed_document, with the
payload fields inlined. -/
structure PointStruct where
  id : String
  vector : List ℚ
  text : String
  document_id : String
  vendor_id : String
  filename : String
  chunk_index : ℕ
  total_chunks : ℕ
  source : String
deriving DecidableEq

/-- The point list built by the ingestion loop: enumerate the split
chunks, keep the ones whose stripped text is non-empty, and attach the
shared payload fields; chunk_index is the enumeration index and
total_chunks the length of the full split. -/
def ingestPoints (chunks : List String) (embed : String → List ℚ)
    (mkId : ℕ → String) (document_id vendor_id filename : String) :
    List PointStruct :=
  (chunks.enum.filter (fun ic => pyStrip ic.2 != "")).map (fun ic =>
    { id := mkId ic.1,
      vector := embed ic.2,
      text := ic.2,
      document_id := document_id,
      vendor_id := vendor_id,
      filename := filename,
      chunk_index := ic.1,
      total_chunks := chunks.length,
      source := filename })

/-- chunk_and_embed_document: extract (outcome passed in), return a
zero-chunk result on whitespace-only text, otherwise split (the external
splitter passed as an oracle), build the points and report the count;
any raised error is re-raised wrapped as a generic exception with the
document-processing prefix. -/
def chunk_and_embed_document (split : String → List String)
    (embed : String → List ℚ) (mkId : ℕ → String)
    (extracted : Except PyErr String)
    (document_id vendor_id filename : String) :
    Except PyErr (List PointStruct × String) :=
  match extracted with
  | .error e => .error (.exception ("Error processing document: " ++ errMsg e))
  | .ok raw_text =>
    if pyStrip raw_text = "" then
      .ok ([], "No text content extracted from document")
    else
      let points := ingestPoints (split raw_text) embed mkId
        document_id vendor_id filename
      .ok (points, "Successfully processed " ++ toString points.length ++ " chunks")

/-! The vendor filter and the filtered vector search. -/

/-- A qdrant FieldCondition with a MatchValue: one field-equality
condition. -/
structure FieldCondition where
  key : String
  value : String
deriving DecidableEq

/-- The filter built in analyze_risk: none when no vendor_ids are given,
otherwise a must-conjunction of one vendor_id equality per listed id. -/
def vendor_filter (vendor_ids : List String) : Option (List FieldCondition) :=
  if vendor_ids.isEmpty then none
  else some (vendor_ids.map (fun vid => { key := "vendor_id", value := vid }))

/-- String-valued payload field lookup on a stored point. -/
def payloadField (p : PointStruct) : String → Option String
  | "text" => some p.text
  | "document_id" => some p.document_id
  | "vendor_id" => some p.vendor_id
  | "filename" => some p.filename
  | "source" => some p.source
  | _ => none

/-- qdrant condition semantics: the keyed payload field equals the match
value. -/
def matchesCondition (p : PointStruct) (c : FieldCondition) : Bool :=
  payloadField p c.key == some c.value

/-- qdrant filter semantics: no filter matches everything; a must-filter
matches when every condition holds. -/
def matchesFilter (p : PointStruct) : Option (List FieldCondition) → Bool
  | none => true
  | some conds => conds.all (matchesCondition p)

/-- Filtered nearest-neighbour search: the store is given already ranked
by descending similarity; search keeps the points accepted by the filter
and truncates to the limit. -/
def qdrant_search (ranked : List (PointStruct × ℚ))
    (f : Option (List FieldCondition)) (limit : ℕ) : List (PointStruct × ℚ) :=
  (ranked.filter (fun pt => matchesFilter pt.1 f)).take limit

/-! The analyze route. -/

/-- The payload of a search hit as read by analyze_risk: the two fields
it accesses, each possibly absent. -/
structure HitPayload where
  text : Option String
  source : Option String
deriving DecidableEq

/-- A scored search hit returned by the vector store. -/
structure Hit where
  score : ℚ
  payload : HitPayload
deriving DecidableEq

/-- One iteration of the aggregation loop in analyze_risk: drop the hit
when its score is below 0.10, otherwise keep (text, source) with the
Python dict-get defaults for absent fields. -/
def hitEntry (hit : Hit) : Option (String × String) :=
  if hit.score < mkRat 1 10 then none
  else some (hit.payload.text.getD "", hit.payload.source.getD "Unknown")

/-- The scored_chunks list built from the search result. -/
def scoredChunks (search_result : List Hit) : List (String × String) :=
  search_result.filterMap hitEntry

/-- The reference context: the texts of the first three kept chunks,
joined with the visible separator. -/
def referenceContext (search_result : List Hit) : String :=
  String.intercalate "\n\n---\n\n" (((scoredChunks search_result).take 3).map Prod.fst)

/-- RISK_TEMPLATE.format(context=..., query=...). -/
def RISK_TEMPLATE_format (context query : String) : String :=
  "\nYou are a domain expert specialized in supply chain risk analysis.\n\n### Response Instructions:\n- Assess the risk level as Low, Moderate, or High.\n- Provide a summary justification.\n- Include specific extracted evidence.\n\n### Reference Context:\n"
    ++ context ++ "\n\n### User Query:\n" ++ query ++ "\n"

/-- generate_ssr_prompt: the fixed instructional prompt embedding the raw
query. -/
def generate_ssr_prompt (user_query : String) : String :=
  "\n    You are an expert in supply chain risk analysis.\n    Generate a hypothetical but realistic analytical snippet that represents what an answer to the following risk query might look like.\n    The snippet should be a short paragraph addressing the query.\n\n    Query: "
    ++ user_query ++ "\n\n    Hypothetical Analysis:\n    "

/-- The response body of the analyze route. -/
structure RiskVerdict where
  risk_level : String
  evidence : List String
  summary : String
deriving DecidableEq

/-- Outcome of one analyze_risk request: an HTTPException with status and
detail, or a successful JSON body. -/
inductive AnalyzeOutcome where
  | httpError : ℕ → String → AnalyzeOutcome
  | success : RiskVerdict → AnalyzeOutcome
deriving DecidableEq

/-- analyze_risk from server/api/routes/rag.py.  The remote calls are
oracles: ssr receives the SSR prompt and yields the hypothetical
analysis or a raised error; search receives the constructed vendor
filter and yields the ranked hits (the embedding of the hypothetical
paragraph is internal to this oracle); llm receives the final user
prompt and yields the assessment text.  The returned Bool records
whether the final LLM generation step was invoked. -/
def analyze_risk (query : String) (vendor_ids : List String)
    (ssr : String → Except String String)
    (search : Option (List FieldCondition) → Except String (List Hit))
    (llm : String → Except String String) : AnalyzeOutcome × Bool :=
  let user_query := pyStrip query
  if user_query = "" then (.httpError 400 "Query cannot be empty.", false)
  else
    match ssr (generate_ssr_prompt user_query) with
    | .error e => (.httpError 500 ("SSR generation error: " ++ e), false)
    | .ok _hypothetical =>
      match search (vendor_filter vendor_ids) with
      | .error e => (.httpError 500 ("Vector DB search error: " ++ e), false)
      | .ok search_result =>
        if search_result.isEmpty then
          (.success
            { risk_level := "Low", evidence := [],
              summary := "No relevant material found." }, false)
        else
          let scored_chunks := scoredChunks search_result
          if scored_chunks.isEmpty then
            (.success
              { risk_level := "Low", evidence := [],
                summary := "No sufficiently relevant content found." }, false)
          else
            let prompt := RISK_TEMPLATE_format (referenceContext search_result) user_query
            match llm prompt with
            | .error e => (.httpError 500 ("LLM error: " ++ e), true)
            | .ok assessment_text =>
              (.success
                { risk_level := parse_risk_assessment assessment_text,
                  evidence := pySortedSet ((scored_chunks.take 3).map Prod.snd),
                  summary := assessment_text }, true)

end Safebot

namespace Safebot

/-! Helper lemmas on the Python string order and sorted sets. -/

theorem lexLe_total : ∀ as bs : List Char, lexLe as bs = true ∨ lexLe bs as = true
  | [], _ => Or.inl rfl
  | _ :: _, [] => Or.inr rfl
  | a :: as, b :: bs => by
    rcases lt_trichotomy a b with h | h | h
    · exact Or.inl (by simp [lexLe, h])
    · subst h
      rcases lexLe_total as bs with ih | ih
      · exact Or.inl (by simp [lexLe, ih])
      · exact Or.inr (by simp [lexLe, ih])
    · exact Or.inr (by simp [lexLe, h])

theorem lexLe_trans : ∀ as bs cs : List Char,
    lexLe as bs = true → lexLe bs cs = true → lexLe as cs = true
  | [], _, _, _, _ => rfl
  | _ :: _, [], _, h1, _ => absurd h1 (by simp [lexLe])
  | _ :: _, _ :: _, [], _, h2 => absurd h2 (by simp [lexLe])
  | a :: as, b :: bs, c :: cs, h1, h2 => by
    simp only [lexLe] at h1 h2 ⊢
    rcases lt_trichotomy a b with hab | hab | hab
    · rcases lt_trichotomy b c with hbc | hbc | hbc
      · simp [lt_trans hab hbc]
      · subst hbc; simp [hab]
      · rw [if_neg (lt_asymm hbc), if_pos hbc] at h2; simp at h2
    · subst hab
      rw [if_neg (lt_irrefl a), if_neg (lt_irrefl a)] at h1
      rcases lt_trichotomy a c with hac | hac | hac
      · simp [hac]
      · subst hac
        rw [if_neg (lt_irrefl a), if_neg (lt_irrefl a)] at h2 ⊢
        exact lexLe_trans as bs cs h1 h2
      · rw [if_neg (lt_asymm hac), if_pos hac] at h2; simp at h2
    · rw [if_neg (lt_asymm hab), if_pos hab] at h1; simp at h1

instance : IsTotal String pyStrLe :=
  ⟨fun a b => lexLe_total a.toList b.toList⟩

instance : IsTrans String pyStrLe :=
  ⟨fun a b c => lexLe_trans a.toList b.toList c.toList⟩

theorem pySortedSet_sorted (l : List String) : List.Sorted pyStrLe (pySortedSet l) :=
  List.sorted_insertionSort pyStrLe l.dedup

theorem pySortedSet_perm (l : List String) : (pySortedSet l).Perm l.dedup :=
  List.perm_insertionSort pyStrLe l.dedup

theorem pySortedSet_nodup (l : List String) : (pySortedSet l).Nodup :=
  ((pySortedSet_perm l).nodup_iff).mpr (List.nodup_dedup l)

theorem pySortedSet_length_le (l : List String) : (pySortedSet l).length ≤ l.length := by
  rw [(pySortedSet_perm l).length_eq]
  exact (List.dedup_sublist l).length_le

theorem pySortedSet_mem (l : List String) (s : String) : s ∈ pySortedSet l ↔ s ∈ l := by
  rw [(pySortedSet_perm l).mem_iff, List.mem_dedup]

/-! Helper lemmas on the aggregation loop and the analyze route. -/

theorem hitEntry_eq_none (h : Hit) : hitEntry h = none ↔ h.score < mkRat 1 10 := by
  simp only [hitEntry]
  split <;> simp_all

theorem scoredChunks_eq_nil (hits : List Hit) :
    scoredChunks hits = [] ↔ ∀ h ∈ hits, h.score < mkRat 1 10 := by
  rw [scoredChunks, List.filterMap_eq_nil_iff]
  simp only [hitEntry_eq_none]

theorem parse_risk_cases (t : String) :
    parse_risk_assessment t = "High" ∨ parse_risk_assessment t = "Low" ∨
      parse_risk_assessment t = "Moderate" := by
  unfold parse_risk_assessment
  split
  · exact Or.inl rfl
  · split
    · exact Or.inr (Or.inl rfl)
    · exact Or.inr (Or.inr rfl)

theorem analyze_risk_final (query : String) (vendor_ids : List String)
    (ssrText : String) (hits : List Hit) (llmText : String)
    (hq : pyStrip query ≠ "") (hhits : hits ≠ []) (hscored : scoredChunks hits ≠ []) :
    analyze_risk query vendor_ids (fun _ => .ok ssrText) (fun _ => .ok hits)
        (fun _ => .ok llmText)
      = (.success
          { risk_level := parse_risk_assessment llmText,
            evidence := pySortedSet (((scoredChunks hits).take 3).map Prod.snd),
            summary := llmText }, true) := by
  unfold analyze_risk
  simp [hq, hhits, hscored]

end Safebot

namespace Safebot

/-- C1: For every call to the assess/analyze operation that supplies
vendor_ids, the vendor filter is built as a conjunction (must) of one
vendor_id-equality condition per supplied id; since each stored chunk
carries a single-valued vendor_id, for every call supplying two or more
distinct vendor_ids the filtered search can never match any stored chunk
and yields no hits. -/
theorem claim1_vendor_filter_conjunction (vendor_ids : List String) (a b : String)
    (ha : a ∈ vendor_ids) (hb : b ∈ vendor_ids) (hab : a ≠ b) :
    vendor_filter vendor_ids
        = some (vendor_ids.map (fun vid => { key := "vendor_id", value := vid }))
      ∧ (∀ p : PointStruct, matchesFilter p (vendor_filter vendor_ids) = false)
      ∧ (∀ (ranked : List (PointStruct × ℚ)) (limit : ℕ),
          qdrant_search ranked (vendor_filter vendor_ids) limit = []) := by
  have hne : vendor_ids ≠ [] := List.ne_nil_of_mem ha
  have hfe : vendor_ids.isEmpty = false := by
    simp [List.isEmpty_iff, hne]
  have hform : vendor_filter vendor_ids
      = some (vendor_ids.map (fun vid => { key := "vendor_id", value := vid })) := by
    simp [vendor_filter, hfe]
  have hfalse : ∀ p : PointStruct, matchesFilter p (vendor_filter vendor_ids) = false := by
    intro p
    rw [hform]
    by_contra hcon
    have hall : (vendor_ids.map
        (fun vid => ({ key := "vendor_id", value := vid } : FieldCondition))).all
        (matchesCondition p) = true := by
      revert hcon
      cases h : (vendor_ids.map
          (fun vid => ({ key := "vendor_id", value := vid } : FieldCondition))).all
          (matchesCondition p) <;> simp [matchesFilter, h]
    have hmem := List.all_eq_true.mp hall
    have hma := hmem _ (List.mem_map_of_mem _ ha)
    have hmb := hmem _ (List.mem_map_of_mem _ hb)
    simp only [matchesCondition, payloadField, beq_iff_eq, Option.some.injEq] at hma hmb
    exact hab (hma ▸ hmb ▸ rfl)
  refine ⟨hform, hfalse, fun ranked limit => ?_⟩
  unfold qdrant_search
  have : ranked.filter (fun pt => matchesFilter pt.1 (vendor_filter vendor_ids)) = [] :=
    List.filter_eq_nil_iff.mpr (fun pt _ => by simp [hfalse pt.1])
  rw [this, List.take_nil]

theorem claim1_witness :
    ("a" ∈ ["a", "b"] ∧ "b" ∈ ["a", "b"] ∧ ("a" : String) ≠ "b")
      ∧ qdrant_search
          [({ id := "1", vector := [], text := "t", document_id := "d",
              vendor_id := "a", filename := "f", chunk_index := 0,
              total_chunks := 1, source := "f" }, mkRat 1 2)]
          (vendor_filter ["a", "b"]) 8 = [] :=
  ⟨⟨by decide, by decide, by decide⟩,
    (claim1_vendor_filter_conjunction ["a", "b"] "a" "b" (by decide) (by decide)
      (by decide)).2.2 _ 8⟩

/-- C2: For every non-empty query, when the vector search returns zero
matches, analyze returns risk_level Low, empty evidence and the summary
"No relevant material found."; when matches return but every score is
below 0.10 it returns risk_level Low, empty evidence and the summary
"No sufficiently relevant content found."; both are successful outcomes
and the final LLM generation step is never invoked (the invocation flag
is false and the result holds for an arbitrary final-LLM oracle). -/
theorem claim2_empty_result_policy (query : String) (vendor_ids : List String)
    (ssrText : String) (hits : List Hit) (llm : String → Except String String)
    (hq : pyStrip query ≠ "") :
    (hits = [] →
      analyze_risk query vendor_ids (fun _ => .ok ssrText) (fun _ => .ok hits) llm
        = (.success
            { risk_level := "Low", evidence := [],
              summary := "No relevant material found." }, false))
    ∧ (hits ≠ [] → (∀ h ∈ hits, h.score < mkRat 1 10) →
      analyze_risk query vendor_ids (fun _ => .ok ssrText) (fun _ => .ok hits) llm
        = (.success
            { risk_level := "Low", evidence := [],
              summary := "No sufficiently relevant content found." }, false)) := by
  constructor
  · intro h
    subst h
    unfold analyze_risk
    simp [hq]
  · intro hne hall
    have hsc : scoredChunks hits = [] := (scoredChunks_eq_nil hits).mpr hall
    unfold analyze_risk
    simp [hq, hne, hsc]

theorem claim2_witness :
    pyStrip "q" ≠ ""
      ∧ analyze_risk "q" [] (fun _ => .ok "hyp") (fun _ => .ok [])
          (fun _ => .error "down")
        = (.success
            { risk_level := "Low", evidence := [],
              summary := "No relevant material found." }, false) :=
  ⟨by decide,
    (claim2_empty_result_policy "q" [] "hyp" [] (fun _ => .error "down")
      (by decide)).1 rfl⟩

/-- C3: For every assess invocation that reaches the final generation
step, the returned evidence list is exactly the set of distinct source
values among the first 3 surviving (score at least 0.10) matches, sorted
ascending, contains no duplicates, and has length at most 3. -/
theorem claim3_evidence_shape (query : String) (vendor_ids : List String)
    (ssrText : String) (hits : List Hit) (llmText : String)
    (hq : pyStrip query ≠ "") (hhits : hits ≠ []) (hscored : scoredChunks hits ≠ []) :
    ∃ v : RiskVerdict,
      (analyze_risk query vendor_ids (fun _ => .ok ssrText) (fun _ => .ok hits)
        (fun _ => .ok llmText)).1 = .success v
      ∧ v.evidence = pySortedSet (((scoredChunks hits).take 3).map Prod.snd)
      ∧ List.Sorted pyStrLe v.evidence
      ∧ v.evidence.Nodup
      ∧ v.evidence.length ≤ 3
      ∧ (∀ s, s ∈ v.evidence ↔ s ∈ ((scoredChunks hits).take 3).map Prod.snd) := by
  refine ⟨_, by rw [analyze_risk_final query vendor_ids ssrText hits llmText hq hhits hscored],
    rfl, pySortedSet_sorted _, pySortedSet_nodup _, ?_, fun s => pySortedSet_mem _ s⟩
  have h1 := pySortedSet_length_le (((scoredChunks hits).take 3).map Prod.snd)
  have h2 : (((scoredChunks hits).take 3).map Prod.snd).length ≤ 3 := by
    rw [List.length_map]
    exact List.length_take_le 3 (scoredChunks hits)
  exact le_trans h1 h2

theorem claim3_witness :
    (pyStrip "q" ≠ ""
      ∧ ([{ score := mkRat 1 2, payload := { text := some "t", source := some "s" } }]
          : List Hit) ≠ []
      ∧ scoredChunks
          [{ score := mkRat 1 2, payload := { text := some "t", source := some "s" } }]
          ≠ [])
      ∧ ∃ v : RiskVerdict,
        (analyze_risk "q" [] (fun _ => .ok "hyp")
          (fun _ => .ok
            [{ score := mkRat 1 2, payload := { text := some "t", source := some "s" } }])
          (fun _ => .ok "fine")).1 = .success v
        ∧ v.evidence = pySortedSet (((scoredChunks
            [{ score := mkRat 1 2,
               payload := { text := some "t", source := some "s" } }]).take 3).map
              Prod.snd)
        ∧ List.Sorted pyStrLe v.evidence
        ∧ v.evidence.Nodup
        ∧ v.evidence.length ≤ 3
        ∧ (∀ s, s ∈ v.evidence ↔ s ∈ ((scoredChunks
            [{ score := mkRat 1 2,
               payload := { text := some "t", source := some "s" } }]).take 3).map
              Prod.snd) :=
  ⟨⟨by decide, by decide, by decide⟩,
    claim3_evidence_shape "q" [] "hyp" _ "fine" (by decide) (by decide) (by decide)⟩

/-- C4: For every generated assessment text, the extracted risk_level is
determined by scanning only its first 50 characters: if the literal
substring High occurs there the result is High (High wins over Low),
otherwise if Low occurs there the result is Low, otherwise Moderate; the
result is always one of Low, Moderate, High, and the full generated text
is returned unchanged as the summary. -/
theorem claim4_classification_extraction (t : String) :
    (py_in "High" (t.take 50) = true → parse_risk_assessment t = "High")
    ∧ (py_in "High" (t.take 50) = false → py_in "Low" (t.take 50) = true →
        parse_risk_assessment t = "Low")
    ∧ (py_in "High" (t.take 50) = false → py_in "Low" (t.take 50) = false →
        parse_risk_assessment t = "Moderate")
    ∧ (parse_risk_assessment t = "Low" ∨ parse_risk_assessment t = "Moderate"
        ∨ parse_risk_assessment t = "High")
    ∧ (∀ (query : String) (vendor_ids : List String) (ssrText : String)
        (hits : List Hit), pyStrip query ≠ "" → hits ≠ [] → scoredChunks hits ≠ [] →
        analyze_risk query vendor_ids (fun _ => .ok ssrText) (fun _ => .ok hits)
            (fun _ => .ok t)
          = (.success
              { risk_level := parse_risk_assessment t,
                evidence := pySortedSet (((scoredChunks hits).take 3).map Prod.snd),
                summary := t }, true)) := by
  refine ⟨fun h => by simp [parse_risk_assessment, h],
    fun h1 h2 => by simp [parse_risk_assessment, h1, h2],
    fun h1 h2 => by simp [parse_risk_assessment, h1, h2],
    ?_, ?_⟩
  · rcases parse_risk_cases t with h | h | h
    · exact Or.inr (Or.inr h)
    · exact Or.inl h
    · exact Or.inr (Or.inl h)
  · intro query vendor_ids ssrText hits hq hh hs
    exact analyze_risk_final query vendor_ids ssrText hits t hq hh hs

theorem claim4_witness :
    py_in "High" ("High risk due to x".take 50) = true
      ∧ parse_risk_assessment "High risk due to x" = "High" :=
  ⟨by decide, (claim4_classification_extraction "High risk due to x").1 (by decide)⟩

/-- C9: Classification extraction is idempotent and purely a function of
the first 50 characters of its input: applying the extraction to its own
output yields the same risk level, and any two texts agreeing on their
first 50 characters extract to the same risk level. -/
theorem claim9_extraction_idempotent (t u : String) :
    parse_risk_assessment (parse_risk_assessment t) = parse_risk_assessment t
    ∧ (t.take 50 = u.take 50 → parse_risk_assessment t = parse_risk_assessment u) := by
  constructor
  · rcases parse_risk_cases t with h | h | h <;> rw [h] <;> decide
  · intro h
    unfold parse_risk_assessment
    rw [h]

set_option maxHeartbeats 1000000 in
theorem claim9_witness :
    ("01234567890123456789012345678901234567890123456789High".take 50
        = "01234567890123456789012345678901234567890123456789Low".take 50)
      ∧ parse_risk_assessment "01234567890123456789012345678901234567890123456789High"
        = parse_risk_assessment "01234567890123456789012345678901234567890123456789Low" :=
  ⟨by decide,
    (claim9_extraction_idempotent
      "01234567890123456789012345678901234567890123456789High"
      "01234567890123456789012345678901234567890123456789Low").2 (by decide)⟩

end Safebot

namespace Safebot

/-- A response carrying both a parsable envelope (choices[0].message.content)
and an explicit error object. -/
def respBothShapes : J :=
  J.o [("choices", J.l [J.o [("message", J.o [("content", J.s "ok")])]]),
       ("error", J.s "boom")]

/-- C5 counterexample: a response that contains an explicit error object
but also a parsable choices[0].message.content envelope is answered with
the content; the call does not fail with a RemoteModelError, refuting the
claim as stated for this response. -/
theorem claim5_counterexample :
    J.find respBothShapes "error" = some (J.s "boom")
      ∧ parse_llm_response respBothShapes = .ok (J.s "ok") :=
  ⟨rfl, rfl⟩

/-- C5 (amended): for every remote completion response on which none of
the known envelope shapes yields a result: if the response contains an
explicit error object the call fails with a RemoteModelError carrying
that error payload, and if no error object is present it fails with the
distinct UnrecognizedResponseFormat error; the two failure modes are
distinguishable by the caller. -/
theorem claim5_error_modes (resp : J) (hshape : tryShapes resp = none) :
    (∀ e, J.find resp "error" = some e →
      parse_llm_response resp = .error (.remoteModelError e))
    ∧ (J.find resp "error" = none →
      parse_llm_response resp = .error .unrecognizedResponseFormat)
    ∧ (∀ e, LLMFail.remoteModelError e ≠ LLMFail.unrecognizedResponseFormat) := by
  refine ⟨?_, ?_, fun e h => LLMFail.noConfusion h⟩
  · intro e he
    unfold parse_llm_response
    rw [hshape, he]
  · intro he
    unfold parse_llm_response
    rw [hshape, he]

/-- A response with only an error object. -/
def respErrOnly : J := J.o [("error", J.s "boom")]

theorem claim5_witness :
    tryShapes respErrOnly = none
      ∧ parse_llm_response respErrOnly = .error (.remoteModelError (J.s "boom")) :=
  ⟨rfl, (claim5_error_modes respErrOnly rfl).1 (J.s "boom") rfl⟩

/-- C6: For every remote completion response with a non-empty choices
array, the gateway attempts the three envelope shapes in order until one
succeeds and returns the first match: (a) choices[0].message.content;
(b) choices[0].text; (c) choices[0].content, taken as a plain string or,
when it is an ordered sequence of parts, as the concatenation in order
of the text fields of the parts. -/
theorem claim6_envelope_shapes (resp choice : J) (rest : List J)
    (hc : J.find resp "choices" = some (J.l (choice :: rest))) :
    (∀ v, tryShapeA choice = some v → parse_llm_response resp = .ok v)
    ∧ (tryShapeA choice = none → ∀ v, tryShapeB choice = some v →
        parse_llm_response resp = .ok v)
    ∧ (tryShapeA choice = none → tryShapeB choice = none → ∀ v,
        tryShapeC choice = some v → parse_llm_response resp = .ok v)
    ∧ (∀ str, choice.find "content" = some (J.s str) →
        tryShapeC choice = some (J.s str))
    ∧ (∀ parts, choice.find "content" = some (J.l parts) →
        tryShapeC choice = some (J.s (String.join (parts.map partText))))
    ∧ (∀ p txt, J.find p "text" = some (J.s txt) → partText p = txt) := by
  refine ⟨?_, ?_, ?_, ?_, ?_, ?_⟩
  · intro v hv
    unfold parse_llm_response tryShapes
    rw [hc]
    simp [hv]
  · intro ha v hv
    unfold parse_llm_response tryShapes
    rw [hc]
    simp [ha, hv]
  · intro ha hb v hv
    unfold parse_llm_response tryShapes
    rw [hc]
    simp [ha, hb, hv]
  · intro str hs2
    unfold tryShapeC
    rw [hs2]
  · intro parts hp
    unfold tryShapeC
    rw [hp]
  · intro p txt hp
    unfold partText
    rw [hp]

/-- A response in the plain OpenAI envelope. -/
def respShapeA : J :=
  J.o [("choices", J.l [J.o [("message", J.o [("content", J.s "hello")])]])]

theorem claim6_witness :
    J.find respShapeA "choices"
        = some (J.l [J.o [("message", J.o [("content", J.s "hello")])]])
      ∧ parse_llm_response respShapeA = .ok (J.s "hello") :=
  ⟨rfl,
    (claim6_envelope_shapes respShapeA
      (J.o [("message", J.o [("content", J.s "hello")])]) [] rfl).1
      (J.s "hello") rfl⟩

/-- Discriminates results that are a raised ValueError. -/
def isValueErrorResult : Except PyErr (List PointStruct × String) → Bool
  | .error (.valueError _) => true
  | _ => false

/-- C7 counterexample: ingesting a file with the unsupported extension
.xyz makes the pipeline fail, but the error surfaced by
chunk_and_embed_document is the re-wrapped generic exception, not a
ValueError, refuting the claim as stated at the ingestion-operation
level. -/
theorem claim7_counterexample :
    chunk_and_embed_document (fun _ => []) (fun _ => []) (fun _ => "")
        (extract_text_from_file ".xyz" (.ok "") (.ok "") (.ok "")) "d" "v" "f"
      = .error (.exception "Error processing document: Unsupported file type: .xyz")
    ∧ isValueErrorResult
        (chunk_and_embed_document (fun _ => []) (fun _ => []) (fun _ => "")
          (extract_text_from_file ".xyz" (.ok "") (.ok "") (.ok "")) "d" "v" "f")
      = false :=
  ⟨rfl, rfl⟩

/-- C7 (amended): for every file path whose extension (lower-cased) is
not one of .pdf, .docx, .txt, extraction fails with a fatal ValueError
naming the unsupported extension, and the ingestion operation surfaces
it re-wrapped as a generic error whose message still names the
extension. -/
theorem claim7_unsupported_extension (extRaw : String)
    (readPdf readDocx readTxt : Except PyErr String)
    (split : String → List String) (embed : String → List ℚ) (mkId : ℕ → String)
    (document_id vendor_id filename : String)
    (h1 : pyLower extRaw ≠ ".pdf") (h2 : pyLower extRaw ≠ ".docx")
    (h3 : pyLower extRaw ≠ ".txt") :
    extract_text_from_file extRaw readPdf readDocx readTxt
        = .error (.valueError ("Unsupported file type: " ++ pyLower extRaw))
      ∧ chunk_and_embed_document split embed mkId
          (extract_text_from_file extRaw readPdf readDocx readTxt)
          document_id vendor_id filename
        = .error (.exception
            ("Error processing document: " ++ ("Unsupported file type: " ++ pyLower extRaw))) := by
  have hext : extract_text_from_file extRaw readPdf readDocx readTxt
      = .error (.valueError ("Unsupported file type: " ++ pyLower extRaw)) := by
    unfold extract_text_from_file
    simp [h1, h2, h3]
  refine ⟨hext, ?_⟩
  unfold chunk_and_embed_document
  rw [hext]
  rfl

theorem claim7_witness :
    (pyLower ".XYZ" ≠ ".pdf" ∧ pyLower ".XYZ" ≠ ".docx" ∧ pyLower ".XYZ" ≠ ".txt")
      ∧ extract_text_from_file ".XYZ" (.ok "") (.ok "") (.ok "")
        = .error (.valueError ("Unsupported file type: " ++ pyLower ".XYZ")) :=
  ⟨⟨by decide, by decide, by decide⟩,
    (claim7_unsupported_extension ".XYZ" (.ok "") (.ok "") (.ok "")
      (fun _ => []) (fun _ => []) (fun _ => "") "d" "v" "f"
      (by decide) (by decide) (by decide)).1⟩

end Safebot

namespace Safebot

/-- C8: For every document ingested by the ingestion pipeline, all chunks
stored for that document share the same document_id, vendor_id, filename
and total_chunks, have source equal to filename, and their chunk_index
values are the sequential 0-based positions within total_chunks with no
gaps (given the chunker contract that split pieces are never
whitespace-only). -/
theorem claim8_chunk_invariants (split : String → List String)
    (embed : String → List ℚ) (mkId : ℕ → String)
    (raw document_id vendor_id filename : String)
    (hraw : pyStrip raw ≠ "") (hchunks : ∀ c ∈ split raw, pyStrip c ≠ "") :
    chunk_and_embed_document split embed mkId (.ok raw) document_id vendor_id filename
        = .ok (ingestPoints (split raw) embed mkId document_id vendor_id filename,
            "Successfully processed "
              ++ toString
                (ingestPoints (split raw) embed mkId document_id vendor_id filename).length
              ++ " chunks")
      ∧ (∀ p ∈ ingestPoints (split raw) embed mkId document_id vendor_id filename,
          p.document_id = document_id ∧ p.vendor_id = vendor_id
            ∧ p.filename = filename ∧ p.source = filename
            ∧ p.total_chunks = (split raw).length
            ∧ p.chunk_index < (split raw).length)
      ∧ (ingestPoints (split raw) embed mkId document_id vendor_id filename).map
            PointStruct.chunk_index = List.range (split raw).length := by
  have hfilter : ((split raw).enum.filter (fun ic => pyStrip ic.2 != ""))
      = (split raw).enum := by
    apply List.filter_eq_self.mpr
    rintro ⟨i, x⟩ hic
    have h3 := List.mem_enumFrom hic
    have hx : x ∈ split raw := by
      rw [h3.2.2]
      exact List.getElem_mem _
    simpa using hchunks x hx
  have hpmap : ingestPoints (split raw) embed mkId document_id vendor_id filename
      = (split raw).enum.map (fun ic =>
          { id := mkId ic.1, vector := embed ic.2, text := ic.2,
            document_id := document_id, vendor_id := vendor_id, filename := filename,
            chunk_index := ic.1, total_chunks := (split raw).length,
            source := filename }) := by
    unfold ingestPoints
    rw [hfilter]
  refine ⟨?_, ?_, ?_⟩
  · unfold chunk_and_embed_document
    simp [hraw]
  · intro p hp
    rw [hpmap] at hp
    obtain ⟨⟨i, x⟩, hic, rfl⟩ := List.mem_map.mp hp
    have h3 := List.mem_enumFrom hic
    refine ⟨rfl, rfl, rfl, rfl, rfl, ?_⟩
    simpa using h3.2.1
  · rw [hpmap, List.map_map]
    exact List.enum_map_fst (split raw)

theorem claim8_witness :
    (pyStrip "ab" ≠ "" ∧ ∀ c ∈ ["a", "b"], pyStrip c ≠ "")
      ∧ (ingestPoints ["a", "b"] (fun _ => []) (fun n => toString n) "d" "v" "f").map
          PointStruct.chunk_index = List.range 2 :=
  ⟨⟨by decide, by decide⟩, by
    have h := (claim8_chunk_invariants (fun _ => ["a", "b"]) (fun _ => [])
      (fun n => toString n) "ab" "d" "v" "f" (by decide) (by decide)).2.2
    exact h⟩

/-- C10: For every search hit processed by analyze, missing payload
fields never cause a failure: a hit whose payload lacks a text field
contributes the empty string, a hit whose payload lacks a source field
is assigned the literal string Unknown, and Unknown can appear in the
returned evidence list in place of a filename (concrete run: a single
hit with both fields absent yields a successful verdict with evidence
[Unknown] and an empty reference context). -/
theorem claim10_missing_payload_defaults :
    (∀ h : Hit, ¬ h.score < mkRat 1 10 → h.payload.text = none →
      h.payload.source = none → hitEntry h = some ("", "Unknown"))
    ∧ analyze_risk "q" [] (fun _ => .ok "hyp")
        (fun _ => .ok [{ score := mkRat 1 2, payload := { text := none, source := none } }])
        (fun _ => .ok "fine")
      = (.success
          { risk_level := "Moderate", evidence := ["Unknown"], summary := "fine" }, true)
    ∧ referenceContext
        [{ score := mkRat 1 2, payload := { text := none, source := none } }] = "" := by
  refine ⟨?_, by decide, by decide⟩
  intro h hge htext hsource
  unfold hitEntry
  rw [if_neg hge, htext, hsource]
  rfl

theorem claim10_witness :
    (¬ (mkRat 1 2 : ℚ) < mkRat 1 10)
      ∧ hitEntry { score := mkRat 1 2, payload := { text := none, source := none } }
        = some ("", "Unknown") :=
  ⟨by decide, claim10_missing_payload_defaults.1 _ (by decide) rfl rfl⟩

end Safebot
